import Mathlib

/-!
Verification of the revenue-leakage detection engine (src/agents/tools.py).

The four detectors — compare_rates, detect_missing_charges,
detect_duplicate_entries, detect_usage_mismatches — are embedded as pure
Lean functions over lists of records.  Numeric fields (rates, quantities,
charges) are modelled as exact rationals; the tolerance constants 0.0001
and the 10 (percent) threshold are exact rational literals.  File loading
is modelled by `Option`-typed inputs: `none` stands for an absent record
set, for which the Python code returns a sentinel message and no findings;
this is embedded as an empty finding list paired with a
`DetectorStatus.missingInput` status.  Python dictionaries used only for
lookup are modelled as functions built by left fold with overwrite, which
matches dict assignment semantics exactly.  The iteration order of the
Python `set` union in detect_usage_mismatches is not fixed by the source,
so the detector is parameterised by an explicit key enumeration order.
-/

/-- Join key shared by all detectors: (customer_id, service_type). -/
abbrev SvcKey := String × String

/-- Contract record, mirroring the fields read from contracts.json. -/
structure Contract where
  contract_id : String
  customer_id : String
  service_type : String
  agreed_rate : ℚ
  start_date : String
  end_date : String
deriving DecidableEq, Repr

/-- Lookup key of a contract, as built at src/agents/tools.py line 113. -/
def contractKey (c : Contract) : SvcKey := (c.customer_id, c.service_type)

/-- Billing record, mirroring the columns of billing_records.csv. -/
structure BillingRecord where
  invoice_id : String
  customer_id : String
  service_type : String
  billed_rate : ℚ
  usage_quantity : ℚ
  total_charge : ℚ
  date : String
deriving DecidableEq, Repr

/-- Lookup key of a billing record (line 119 of the source). -/
def rateKey (r : BillingRecord) : SvcKey := (r.customer_id, r.service_type)

/-- Usage log record, mirroring the fields read from usage_logs.json. -/
structure UsageLog where
  log_id : String
  customer_id : String
  service_type : String
  recorded_usage : ℚ
  timestamp : String
deriving DecidableEq, Repr

/-- Aggregation key of a usage log (line 299 of the source). -/
def usageKey (l : UsageLog) : SvcKey := (l.customer_id, l.service_type)

/-- Status a detector reports alongside its findings.  The Python code
returns a sentinel string ("... file not found.") instead of findings when
a required input is absent; `missingInput` embeds that sentinel. -/
inductive DetectorStatus where
  | ok
  | missingInput
deriving DecidableEq, Repr

/-- One step of building `contract_lookup` (lines 111-114): dict assignment
`contract_lookup[key] = contract`, i.e. overwrite at the contract's key. -/
def lookupStep (m : SvcKey → Option Contract) (c : Contract) : SvcKey → Option Contract :=
  fun k => if k = contractKey c then some c else m k

/-- The contract lookup dict of compare_rates (lines 111-114), as the
function a finished Python dict denotes under `in`/`[]` access: the loop
over contracts inserts each contract at its key, overwriting. -/
def contract_lookup (contracts : List Contract) : SvcKey → Option Contract :=
  contracts.foldl lookupStep (fun _ => none)

/-- Modelled from the spec wording, for comparison with `contract_lookup`:
"when multiple contracts match, the detector resolves by keeping the
last-seen contract for that key" — the last contract of the input sequence
bearing the key, i.e. the first match scanning the reversed sequence. -/
def lastContractFor (cs : List Contract) (k : SvcKey) : Option Contract :=
  cs.reverse.find? (fun c => decide (contractKey c = k))

/-- Rate-mismatch finding: the discrepancy dict built at lines 127-138. -/
structure Discrepancy where
  invoice_id : String
  customer_id : String
  service_type : String
  agreed_rate : ℚ
  billed_rate : ℚ
  usage_quantity : ℚ
  total_charge : ℚ
  correct_charge : ℚ
  revenue_impact : ℚ
  date : String
deriving DecidableEq, Repr

/-- The discrepancy dict for a matched contract/record pair (lines 127-138). -/
def mkDiscrepancy (c : Contract) (r : BillingRecord) : Discrepancy :=
  { invoice_id := r.invoice_id
    customer_id := r.customer_id
    service_type := r.service_type
    agreed_rate := c.agreed_rate
    billed_rate := r.billed_rate
    usage_quantity := r.usage_quantity
    total_charge := r.total_charge
    correct_charge := c.agreed_rate * r.usage_quantity
    revenue_impact := (c.agreed_rate - r.billed_rate) * r.usage_quantity
    date := r.date }

/-- Body of the comparison loop (lines 118-139) for a single billing row:
look the row's key up in the contract dict; if absent, skip; if present,
emit a discrepancy exactly when abs(agreed_rate - billed_rate) > 0.0001. -/
def rateStep (lookup : SvcKey → Option Contract) (r : BillingRecord) : Option Discrepancy :=
  match lookup (rateKey r) with
  | none => none
  | some c =>
    if (0.0001 : ℚ) < |c.agreed_rate - r.billed_rate| then some (mkDiscrepancy c r) else none

/-- The comparison loop of compare_rates (lines 110-139): build the contract
lookup, then scan billing rows in order, appending a discrepancy for each
row that matches a contract and fails the tolerance check. -/
def compareRatesCore (contracts : List Contract) (records : List BillingRecord) :
    List Discrepancy :=
  records.filterMap (rateStep (contract_lookup contracts))

/-- The optional customer/service filters of compare_rates applied to the
contract list (lines 102-108). -/
def filterContracts (customer? service? : Option String) (cs : List Contract) : List Contract :=
  let cs1 := match customer? with
    | none => cs
    | some cid => cs.filter (fun c => decide (c.customer_id = cid))
  match service? with
  | none => cs1
  | some s => cs1.filter (fun c => decide (c.service_type = s))

/-- The optional customer/service filters of compare_rates applied to the
billing rows (lines 102-108). -/
def filterRecords (customer? service? : Option String) (rs : List BillingRecord) :
    List BillingRecord :=
  let rs1 := match customer? with
    | none => rs
    | some cid => rs.filter (fun r => decide (r.customer_id = cid))
  match service? with
  | none => rs1
  | some s => rs1.filter (fun r => decide (r.service_type = s))

/-- compare_rates (lines 76-139): absent contracts or billing input yields
the sentinel return (no findings, missingInput); otherwise both inputs are
filtered and the comparison loop runs. -/
def compare_rates (contracts? : Option (List Contract)) (records? : Option (List BillingRecord))
    (customer? service? : Option String) : List Discrepancy × DetectorStatus :=
  match contracts? with
  | none => ([], DetectorStatus.missingInput)
  | some contracts =>
    match records? with
    | none => ([], DetectorStatus.missingInput)
    | some records =>
      (compareRatesCore (filterContracts customer? service? contracts)
        (filterRecords customer? service? records), DetectorStatus.ok)

/-- The quantities interpolated into the report string of compare_rates
(lines 141-168): the count of all discrepancies (line 145), the total
revenue impact summed over all discrepancies (line 148), the discrepancies
rendered in detail — only the first 10, `discrepancies[:10]` at line 152 —
and the count of discrepancies mentioned only as "... and N more" (line
166; 0 when nothing is omitted, matching natural subtraction). -/
structure RateReport where
  count : ℕ
  total_impact : ℚ
  detailed : List Discrepancy
  omitted : ℕ
deriving DecidableEq, Repr

/-- Report generation of compare_rates (lines 141-168), modelled
structurally by the quantities rendered into the report string. -/
def rateReport (ds : List Discrepancy) : RateReport :=
  { count := ds.length
    total_impact := (ds.map Discrepancy.revenue_impact).sum
    detailed := ds.take 10
    omitted := ds.length - 10 }

/-- The billed_services set of detect_missing_charges (lines 193-195): the
keys of all billing rows; Python set membership is list membership here. -/
def billed_services (records : List BillingRecord) : List SvcKey :=
  records.map rateKey

/-- The selection loop of detect_missing_charges (lines 198-202): keep
exactly the contracts whose key is in no billing row. -/
def missingChargesCore (contracts : List Contract) (records : List BillingRecord) :
    List Contract :=
  contracts.filter (fun c => !(billed_services records).any (fun k => decide (k = contractKey c)))

/-- detect_missing_charges (lines 171-202): absent contracts or billing
input yields the sentinel return; otherwise the selection loop runs. -/
def detect_missing_charges (contracts? : Option (List Contract))
    (records? : Option (List BillingRecord)) : List Contract × DetectorStatus :=
  match contracts? with
  | none => ([], DetectorStatus.missingInput)
  | some contracts =>
    match records? with
    | none => ([], DetectorStatus.missingInput)
    | some records => (missingChargesCore contracts records, DetectorStatus.ok)

/-- Business key of a billing row for duplicate detection: the
duplicate_columns tuple of line 239, ordered lexicographically column by
column as pandas sort_values/groupby orders tuples of sort keys. -/
abbrev DupKey := String ×ₗ String ×ₗ ℚ ×ₗ ℚ ×ₗ ℚ ×ₗ String

/-- Business key of a record (line 239): every column except invoice_id. -/
def dupKey (r : BillingRecord) : DupKey :=
  toLex (r.customer_id, toLex (r.service_type, toLex (r.billed_rate,
    toLex (r.usage_quantity, toLex (r.total_charge, r.date)))))

/-- Rows kept by `billing_df.duplicated(subset=duplicate_columns,
keep=False)` (line 240): the rows whose business key occurs more than once
in the input. -/
def duplicatedRows (records : List BillingRecord) : List BillingRecord :=
  records.filter (fun r => decide (1 < records.countP (fun x => decide (dupKey x = dupKey r))))

/-- The duplicate clusters of detect_duplicate_entries (lines 238-258):
after filtering to duplicated rows, sort_values by the business-key columns
and groupby the same columns yield one group per distinct business key, in
ascending key order; each group holds the rows bearing that key. -/
def duplicateClusters (records : List BillingRecord) : List (DupKey × List BillingRecord) :=
  let dups := duplicatedRows records
  let keys := List.insertionSort (fun a b : DupKey => a ≤ b) (dups.map dupKey).dedup
  keys.map (fun k => (k, dups.filter (fun r => decide (dupKey r = k))))

/-- detect_duplicate_entries (lines 225-258): absent billing input yields
the sentinel return; otherwise the grouped duplicate clusters. -/
def detect_duplicate_entries (records? : Option (List BillingRecord)) :
    List (DupKey × List BillingRecord) × DetectorStatus :=
  match records? with
  | none => ([], DetectorStatus.missingInput)
  | some records => (duplicateClusters records, DetectorStatus.ok)

/-- Usage-mismatch finding: the mismatch dict built at lines 323-330. -/
structure UsageMismatch where
  customer_id : String
  service_type : String
  recorded_usage : ℚ
  billed_usage : ℚ
  difference : ℚ
  difference_pct : ℚ
deriving DecidableEq, Repr

/-- Final value of usage_by_customer_service at a key (lines 297-302): the
accumulation loop starts at 0 and adds recorded_usage of every log with
that key, so the dict's value — and the `.get(key, 0)` default for keys it
never saw — is this sum. -/
def usageTotal (logs : List UsageLog) (k : SvcKey) : ℚ :=
  ((logs.filter (fun l => decide (usageKey l = k))).map UsageLog.recorded_usage).sum

/-- Final value of billing_by_customer_service at a key (lines 305-310),
analogously the sum of usage_quantity over billing rows with that key. -/
def billedTotal (records : List BillingRecord) (k : SvcKey) : ℚ :=
  ((records.filter (fun r => decide (rateKey r = k))).map BillingRecord.usage_quantity).sum

/-- The mismatch dict built at lines 323-330 for one key, from the two
aggregates at that key. -/
def mkUsageMismatch (logs : List UsageLog) (records : List BillingRecord) (k : SvcKey) :
    UsageMismatch :=
  { customer_id := k.1
    service_type := k.2
    recorded_usage := usageTotal logs k
    billed_usage := billedTotal records k
    difference := usageTotal logs k - billedTotal records k
    difference_pct := |usageTotal logs k - billedTotal records k| /
      max (usageTotal logs k) (billedTotal records k) * 100 }

/-- Body of the mismatch loop (lines 314-330) for one key of the union:
when both aggregates are strictly positive and the relative difference
percentage strictly exceeds 10, emit a mismatch. -/
def usageStep (logs : List UsageLog) (records : List BillingRecord) (k : SvcKey) :
    Option UsageMismatch :=
  if 0 < usageTotal logs k ∧ 0 < billedTotal records k then
    if (10 : ℚ) < |usageTotal logs k - billedTotal records k| /
        max (usageTotal logs k) (billedTotal records k) * 100 then
      some (mkUsageMismatch logs records k)
    else none
  else none

/-- Keys appearing in either aggregation dict: every key of a usage log or
of a billing row (with multiplicity; only membership matters below). -/
def keysOf (logs : List UsageLog) (records : List BillingRecord) : List SvcKey :=
  logs.map usageKey ++ records.map rateKey

/-- A legitimate iteration order of the Python set union at line 314: each
key of either source exactly once, in some order.  CPython does not fix
which order; it depends on the process's string hash seed. -/
def IsKeyEnum (order : List SvcKey) (logs : List UsageLog) (records : List BillingRecord) :
    Prop :=
  order.Nodup ∧ (∀ k ∈ order, k ∈ keysOf logs records) ∧ ∀ k ∈ keysOf logs records, k ∈ order

instance (order : List SvcKey) (logs : List UsageLog) (records : List BillingRecord) :
    Decidable (IsKeyEnum order logs records) :=
  inferInstanceAs (Decidable (_ ∧ _ ∧ _))

/-- The mismatch loop (lines 313-330) run along a given enumeration order
of the key-set union. -/
def usageMismatchesOrd (order : List SvcKey) (logs : List UsageLog)
    (records : List BillingRecord) : List UsageMismatch :=
  order.filterMap (usageStep logs records)

/-- First-occurrence enumeration of the key-set union, one legitimate
iteration order used as the canonical one below. -/
def defaultKeyOrder (logs : List UsageLog) (records : List BillingRecord) : List SvcKey :=
  (keysOf logs records).dedup

/-- The mismatch computation of detect_usage_mismatches (lines 296-330)
under the canonical key order. -/
def usageMismatchesCore (logs : List UsageLog) (records : List BillingRecord) :
    List UsageMismatch :=
  usageMismatchesOrd (defaultKeyOrder logs records) logs records

/-- detect_usage_mismatches (lines 275-330): absent usage-log or billing
input yields the sentinel return; otherwise the mismatch computation. -/
def detect_usage_mismatches (logs? : Option (List UsageLog))
    (records? : Option (List BillingRecord)) : List UsageMismatch × DetectorStatus :=
  match logs? with
  | none => ([], DetectorStatus.missingInput)
  | some logs =>
    match records? with
    | none => ([], DetectorStatus.missingInput)
    | some records => (usageMismatchesCore logs records, DetectorStatus.ok)

/-- Example contract of spec section 8: C100, cloud_storage, agreed 0.05. -/
def exContract : Contract :=
  { contract_id := "CT1", customer_id := "C100", service_type := "cloud_storage",
    agreed_rate := 0.05, start_date := "2024-01-01", end_date := "2024-12-31" }

/-- Billing row of the end-to-end scenario: billed 0.045 at usage 100. -/
def exRecord045 : BillingRecord :=
  { invoice_id := "inv1", customer_id := "C100", service_type := "cloud_storage",
    billed_rate := 0.045, usage_quantity := 100, total_charge := 4.5, date := "2024-01-01" }

/-- Undercharge example row of spec section 8: billed 0.04 at usage 100. -/
def exRecordUnder : BillingRecord :=
  { invoice_id := "inv2", customer_id := "C100", service_type := "cloud_storage",
    billed_rate := 0.04, usage_quantity := 100, total_charge := 4, date := "2024-01-02" }

/-- Overcharge example row of spec section 8: billed 0.06 at usage 100. -/
def exRecordOver : BillingRecord :=
  { invoice_id := "inv3", customer_id := "C100", service_type := "cloud_storage",
    billed_rate := 0.06, usage_quantity := 100, total_charge := 6, date := "2024-01-03" }

/-- Orphan billing row: its key (C999, api_calls) matches no contract used
in the examples. -/
def exOrphan : BillingRecord :=
  { invoice_id := "inv9", customer_id := "C999", service_type := "api_calls",
    billed_rate := 3, usage_quantity := 10, total_charge := 30, date := "2024-02-01" }

/-- First duplicate row of the spec section 8 grouping example. -/
def exDupA1 : BillingRecord :=
  { invoice_id := "1", customer_id := "A", service_type := "svc",
    billed_rate := 100, usage_quantity := 5, total_charge := 500, date := "2024-01-01" }

/-- Second duplicate row: identical business content, identifier 2. -/
def exDupA2 : BillingRecord :=
  { invoice_id := "2", customer_id := "A", service_type := "svc",
    billed_rate := 100, usage_quantity := 5, total_charge := 500, date := "2024-01-01" }

/-- Usage log of the spec section 8 threshold example: recorded usage 100. -/
def exLog100 : UsageLog :=
  { log_id := "L1", customer_id := "A", service_type := "svc",
    recorded_usage := 100, timestamp := "2024-01-01T00:00:00" }

/-- Billing row with usage quantity 89 on the same key as `exLog100`. -/
def exBilled89 : BillingRecord :=
  { invoice_id := "u1", customer_id := "A", service_type := "svc",
    billed_rate := 1, usage_quantity := 89, total_charge := 89, date := "2024-01-01" }

/-- Billing row with usage quantity 91 on the same key as `exLog100`. -/
def exBilled91 : BillingRecord :=
  { invoice_id := "u2", customer_id := "A", service_type := "svc",
    billed_rate := 1, usage_quantity := 91, total_charge := 91, date := "2024-01-01" }

/-- Earlier contract on the key (C100, cloud_storage), agreed rate 0.05. -/
def exEarlier : Contract :=
  { contract_id := "CTa", customer_id := "C100", service_type := "cloud_storage",
    agreed_rate := 0.05, start_date := "2023-01-01", end_date := "2023-12-31" }

/-- Later contract on the same key, agreed rate 0.07. -/
def exLater : Contract :=
  { contract_id := "CTb", customer_id := "C100", service_type := "cloud_storage",
    agreed_rate := 0.07, start_date := "2024-01-01", end_date := "2024-12-31" }

/-- Contract with agreed rate 1 on key (A, svc), for the report example. -/
def exReportContract : Contract :=
  { contract_id := "CTr", customer_id := "A", service_type := "svc",
    agreed_rate := 1, start_date := "2024-01-01", end_date := "2024-12-31" }

/-- Billing row on key (A, svc) billed at rate 2, parameterised by its
invoice identifier. -/
def exReportRow (i : String) : BillingRecord :=
  { invoice_id := i, customer_id := "A", service_type := "svc",
    billed_rate := 2, usage_quantity := 1, total_charge := 2, date := "2024-03-01" }

/-- Eleven billing rows that all violate the tolerance against
`exReportContract`, so the report must omit detail for one of them. -/
def exReportRows : List BillingRecord :=
  [exReportRow "I01", exReportRow "I02", exReportRow "I03", exReportRow "I04",
   exReportRow "I05", exReportRow "I06", exReportRow "I07", exReportRow "I08",
   exReportRow "I09", exReportRow "I10", exReportRow "I11"]

/-- Usage log on key (A, svc) with recorded usage 100. -/
def exMismatchLogA : UsageLog :=
  { log_id := "LA", customer_id := "A", service_type := "svc",
    recorded_usage := 100, timestamp := "t1" }

/-- Usage log on key (B, svc) with recorded usage 100. -/
def exMismatchLogB : UsageLog :=
  { log_id := "LB", customer_id := "B", service_type := "svc",
    recorded_usage := 100, timestamp := "t2" }

/-- Billing row on key (A, svc) with usage quantity 50: a 50 percent
mismatch against `exMismatchLogA`. -/
def exMismatchRecA : BillingRecord :=
  { invoice_id := "MA", customer_id := "A", service_type := "svc",
    billed_rate := 1, usage_quantity := 50, total_charge := 50, date := "2024-01-01" }

/-- Billing row on key (B, svc) with usage quantity 50: a 50 percent
mismatch against `exMismatchLogB`. -/
def exMismatchRecB : BillingRecord :=
  { invoice_id := "MB", customer_id := "B", service_type := "svc",
    billed_rate := 1, usage_quantity := 50, total_charge := 50, date := "2024-01-01" }

/-- One legitimate iteration order of the key-set union: A before B. -/
def exOrderAB : List SvcKey := [("A", "svc"), ("B", "svc")]

/-- The other legitimate iteration order: B before A. -/
def exOrderBA : List SvcKey := [("B", "svc"), ("A", "svc")]

/-- Evaluation of the comparison step when the record's key resolves to no
contract: the record is skipped. -/
theorem rateStep_none {lookup : SvcKey → Option Contract} {r : BillingRecord}
    (h : lookup (rateKey r) = none) : rateStep lookup r = none := by
  simp [rateStep, h]

/-- Evaluation of the comparison step when the record's key resolves to a
contract: the tolerance check decides the emission. -/
theorem rateStep_some {lookup : SvcKey → Option Contract} {r : BillingRecord} {c : Contract}
    (h : lookup (rateKey r) = some c) :
    rateStep lookup r =
      if (0.0001 : ℚ) < |c.agreed_rate - r.billed_rate| then some (mkDiscrepancy c r)
      else none := by
  simp [rateStep, h]

/-- Characterisation of an emitted comparison step. -/
theorem rateStep_eq_some_iff {lookup : SvcKey → Option Contract} {r : BillingRecord}
    {d : Discrepancy} :
    rateStep lookup r = some d ↔
      ∃ c, lookup (rateKey r) = some c ∧ (0.0001 : ℚ) < |c.agreed_rate - r.billed_rate| ∧
        d = mkDiscrepancy c r := by
  cases h : lookup (rateKey r) with
  | none => simp [rateStep, h]
  | some c =>
    rw [rateStep_some h]
    by_cases hc : (0.0001 : ℚ) < |c.agreed_rate - r.billed_rate|
    · rw [if_pos hc]
      simp [h, hc, eq_comm]
    · rw [if_neg hc]
      simp [h, hc]

/-- The finished contract dict maps a key to the last contract of the input
sequence bearing that key. -/
theorem contract_lookup_eq_last (cs : List Contract) (k : SvcKey) :
    contract_lookup cs k = lastContractFor cs k := by
  induction cs using List.reverseRecOn with
  | nil => rfl
  | append_singleton cs c ih =>
    have hfold : contract_lookup (cs ++ [c]) k =
        if k = contractKey c then some c else contract_lookup cs k := by
      simp [contract_lookup, List.foldl_append, lookupStep]
    have hlast : lastContractFor (cs ++ [c]) k =
        if contractKey c = k then some c else lastContractFor cs k := by
      rw [lastContractFor, List.reverse_append]
      by_cases hk : contractKey c = k
      · rw [if_pos hk]
        simp [List.find?_cons_of_pos, hk]
      · rw [if_neg hk]
        simp [List.find?_cons_of_neg, hk, lastContractFor]
    rw [hfold, hlast, ih]
    rcases eq_or_ne (contractKey c) k with hk | hk
    · rw [if_pos hk.symm, if_pos hk]
    · rw [if_neg fun h => hk h.symm, if_neg hk]

/-- A key carried by no contract is absent from the contract dict. -/
theorem contract_lookup_eq_none {cs : List Contract} {k : SvcKey}
    (h : ∀ c ∈ cs, contractKey c ≠ k) : contract_lookup cs k = none := by
  rw [contract_lookup_eq_last, lastContractFor]
  apply List.find?_eq_none.mpr
  intro c hc
  simp [h c (List.mem_reverse.mp hc)]

/-- The comparison loop distributes over concatenation of billing rows. -/
theorem compareRatesCore_append (cs : List Contract) (l1 l2 : List BillingRecord) :
    compareRatesCore cs (l1 ++ l2) = compareRatesCore cs l1 ++ compareRatesCore cs l2 := by
  simp [compareRatesCore, List.filterMap_append]

/-- A skipped head row contributes nothing to the comparison loop. -/
theorem compareRatesCore_cons_none {cs : List Contract} {r : BillingRecord}
    (h : rateStep (contract_lookup cs) r = none) (rs : List BillingRecord) :
    compareRatesCore cs (r :: rs) = compareRatesCore cs rs := by
  simp [compareRatesCore, List.filterMap_cons, h]

/-- An emitting head row contributes exactly its finding, first. -/
theorem compareRatesCore_cons_some {cs : List Contract} {r : BillingRecord} {d : Discrepancy}
    (h : rateStep (contract_lookup cs) r = some d) (rs : List BillingRecord) :
    compareRatesCore cs (r :: rs) = d :: compareRatesCore cs rs := by
  simp [compareRatesCore, List.filterMap_cons, h]

/-- Membership in the comparison loop's output. -/
theorem mem_compareRatesCore_iff {cs : List Contract} {rs : List BillingRecord}
    {d : Discrepancy} :
    d ∈ compareRatesCore cs rs ↔ ∃ r ∈ rs, rateStep (contract_lookup cs) r = some d := by
  simp [compareRatesCore, List.mem_filterMap]

/-- Characterisation of an emitted usage-mismatch step. -/
theorem usageStep_eq_some_iff {logs : List UsageLog} {records : List BillingRecord}
    {k : SvcKey} {m : UsageMismatch} :
    usageStep logs records k = some m ↔
      0 < usageTotal logs k ∧ 0 < billedTotal records k ∧
      (10 : ℚ) < |usageTotal logs k - billedTotal records k| /
        max (usageTotal logs k) (billedTotal records k) * 100 ∧
      m = mkUsageMismatch logs records k := by
  rw [usageStep]
  by_cases h1 : 0 < usageTotal logs k ∧ 0 < billedTotal records k
  · rw [if_pos h1]
    by_cases h2 : (10 : ℚ) < |usageTotal logs k - billedTotal records k| /
        max (usageTotal logs k) (billedTotal records k) * 100
    · rw [if_pos h2]
      simp [h1.1, h1.2, h2, eq_comm]
    · rw [if_neg h2]
      simp [h2]
  · rw [if_neg h1]
    constructor
    · intro h
      exact absurd h (by simp)
    · rintro ⟨hA, hB, -, -⟩
      exact absurd ⟨hA, hB⟩ h1

/-- Claim C1: for every billing record whose (customer_id, service_type)
key resolves to a contract, compare_rates emits a RateMismatch finding for
that record if and only if abs(agreed_rate - billed_rate) strictly exceeds
0.0001: wherever the record sits in the input, the output splits around a
singleton guarded by that strict comparison; a difference of exactly 0.0001
contributes no finding and a difference of exactly 0.0002 contributes one. -/
theorem rate_tolerance_boundary (cs : List Contract) (l1 l2 : List BillingRecord)
    (r : BillingRecord) (c : Contract) (h : contract_lookup cs (rateKey r) = some c) :
    compareRatesCore cs (l1 ++ r :: l2) =
      compareRatesCore cs l1 ++
        (if (0.0001 : ℚ) < |c.agreed_rate - r.billed_rate| then [mkDiscrepancy c r] else []) ++
        compareRatesCore cs l2
    ∧ (|c.agreed_rate - r.billed_rate| = 0.0001 →
        compareRatesCore cs (l1 ++ r :: l2) = compareRatesCore cs l1 ++ compareRatesCore cs l2)
    ∧ (|c.agreed_rate - r.billed_rate| = 0.0002 →
        compareRatesCore cs (l1 ++ r :: l2) =
          compareRatesCore cs l1 ++ mkDiscrepancy c r :: compareRatesCore cs l2) := by
  have hstep := rateStep_some h
  have hmain : compareRatesCore cs (l1 ++ r :: l2) =
      compareRatesCore cs l1 ++
        (if (0.0001 : ℚ) < |c.agreed_rate - r.billed_rate| then [mkDiscrepancy c r] else []) ++
        compareRatesCore cs l2 := by
    rw [compareRatesCore_append]
    by_cases hc : (0.0001 : ℚ) < |c.agreed_rate - r.billed_rate|
    · rw [if_pos hc, compareRatesCore_cons_some (by rw [hstep, if_pos hc]) l2]
      simp
    · rw [if_neg hc, compareRatesCore_cons_none (by rw [hstep, if_neg hc]) l2]
      simp
  refine ⟨hmain, ?_, ?_⟩
  · intro he
    rw [hmain, he, if_neg (lt_irrefl _)]
    simp
  · intro he
    rw [hmain, he, if_pos (by norm_num)]
    simp

/-- Claim C1 witness: the end-to-end scenario of spec section 8, agreed
rate 0.05 against billed rate 0.045, at the only position of a one-row
billing input. -/
theorem rate_tolerance_boundary_witness :
    contract_lookup [exContract] (rateKey exRecord045) = some exContract ∧
    compareRatesCore [exContract] ([] ++ exRecord045 :: []) =
      compareRatesCore [exContract] [] ++
        (if (0.0001 : ℚ) < |exContract.agreed_rate - exRecord045.billed_rate|
          then [mkDiscrepancy exContract exRecord045] else []) ++
        compareRatesCore [exContract] [] :=
  ⟨by norm_num [contract_lookup, lookupStep, rateKey, contractKey, exContract, exRecord045],
   (rate_tolerance_boundary [exContract] [] [] exRecord045 exContract
     (by norm_num [contract_lookup, lookupStep, rateKey, contractKey, exContract,
       exRecord045])).1⟩

/-- Claim C2: every finding of the rate comparator carries correct_charge =
agreed_rate × usage_quantity and revenue_impact = (agreed_rate −
billed_rate) × usage_quantity, so the impact is positive exactly when the
billed total falls short of the contractual total (undercharge) and
negative exactly when it exceeds it (overcharge); at agreed 0.05 and usage
100, billed 0.04 yields impact +1 and billed 0.06 yields impact −1. -/
theorem rate_finding_financial_impact :
    (∀ (cs : List Contract) (rs : List BillingRecord) (d : Discrepancy),
      d ∈ compareRatesCore cs rs →
        d.correct_charge = d.agreed_rate * d.usage_quantity ∧
        d.revenue_impact = (d.agreed_rate - d.billed_rate) * d.usage_quantity ∧
        (0 < d.revenue_impact ↔
          d.billed_rate * d.usage_quantity < d.agreed_rate * d.usage_quantity) ∧
        (d.revenue_impact < 0 ↔
          d.agreed_rate * d.usage_quantity < d.billed_rate * d.usage_quantity))
    ∧ compareRatesCore [exContract] [exRecordUnder] = [mkDiscrepancy exContract exRecordUnder]
    ∧ (mkDiscrepancy exContract exRecordUnder).revenue_impact = 1
    ∧ compareRatesCore [exContract] [exRecordOver] = [mkDiscrepancy exContract exRecordOver]
    ∧ (mkDiscrepancy exContract exRecordOver).revenue_impact = -1 := by
  refine ⟨?_, ?_, ?_, ?_, ?_⟩
  · intro cs rs d hd
    obtain ⟨r, hr, hstep⟩ := mem_compareRatesCore_iff.mp hd
    obtain ⟨c, hl, hc, rfl⟩ := rateStep_eq_some_iff.mp hstep
    refine ⟨rfl, rfl, ?_, ?_⟩
    · show 0 < (c.agreed_rate - r.billed_rate) * r.usage_quantity ↔ _
      rw [sub_mul, sub_pos]
      exact Iff.rfl
    · show (c.agreed_rate - r.billed_rate) * r.usage_quantity < 0 ↔ _
      rw [sub_mul, sub_neg]
      exact Iff.rfl
  · norm_num [compareRatesCore, contract_lookup, lookupStep, rateStep, rateKey, contractKey,
      exContract, exRecordUnder, List.filterMap_cons, abs_of_pos, abs_of_neg, abs_sub_comm]
  · norm_num [mkDiscrepancy, exContract, exRecordUnder]
  · norm_num [compareRatesCore, contract_lookup, lookupStep, rateStep, rateKey, contractKey,
      exContract, exRecordOver, List.filterMap_cons, abs_of_pos, abs_of_neg, abs_sub_comm]
  · norm_num [mkDiscrepancy, exContract, exRecordOver]

/-- Claim C2 witness: the undercharge example finding, with its field
equations and sign characterisation discharged at that concrete finding. -/
theorem rate_finding_financial_impact_witness :
    mkDiscrepancy exContract exRecordUnder ∈ compareRatesCore [exContract] [exRecordUnder] ∧
    ((mkDiscrepancy exContract exRecordUnder).correct_charge =
        (mkDiscrepancy exContract exRecordUnder).agreed_rate *
          (mkDiscrepancy exContract exRecordUnder).usage_quantity ∧
      (mkDiscrepancy exContract exRecordUnder).revenue_impact =
        ((mkDiscrepancy exContract exRecordUnder).agreed_rate -
            (mkDiscrepancy exContract exRecordUnder).billed_rate) *
          (mkDiscrepancy exContract exRecordUnder).usage_quantity ∧
      (0 < (mkDiscrepancy exContract exRecordUnder).revenue_impact ↔
        (mkDiscrepancy exContract exRecordUnder).billed_rate *
            (mkDiscrepancy exContract exRecordUnder).usage_quantity <
          (mkDiscrepancy exContract exRecordUnder).agreed_rate *
            (mkDiscrepancy exContract exRecordUnder).usage_quantity) ∧
      ((mkDiscrepancy exContract exRecordUnder).revenue_impact < 0 ↔
        (mkDiscrepancy exContract exRecordUnder).agreed_rate *
            (mkDiscrepancy exContract exRecordUnder).usage_quantity <
          (mkDiscrepancy exContract exRecordUnder).billed_rate *
            (mkDiscrepancy exContract exRecordUnder).usage_quantity)) := by
  have hmem : mkDiscrepancy exContract exRecordUnder ∈
      compareRatesCore [exContract] [exRecordUnder] := by
    rw [rate_finding_financial_impact.2.1]
    exact List.mem_singleton.mpr rfl
  exact ⟨hmem,
    rate_finding_financial_impact.1 [exContract] [exRecordUnder]
      (mkDiscrepancy exContract exRecordUnder) hmem⟩

/-- Claim C3: a contract is flagged as a missing charge exactly when it is
among the input contracts and no billing record bears its (customer_id,
service_type) key — the content of the matching billing records is
irrelevant, only key coincidence counts. -/
theorem missing_charge_iff (cs : List Contract) (rs : List BillingRecord) (c : Contract) :
    c ∈ missingChargesCore cs rs ↔ c ∈ cs ∧ ∀ r ∈ rs, rateKey r ≠ contractKey c := by
  simp [missingChargesCore, List.mem_filter, billed_services]

/-- Claim C3 witness: the example contract against an orphan-only billing
input and the characterisation instantiated there. -/
theorem missing_charge_iff_witness :
    (exContract ∈ missingChargesCore [exContract] [exOrphan] ↔
      exContract ∈ [exContract] ∧ ∀ r ∈ [exOrphan], rateKey r ≠ contractKey exContract) :=
  missing_charge_iff [exContract] [exOrphan] exContract

/-- Claim C4: the duplicate detector groups billing rows by the business
key that excludes the invoice identifier; a row appears in some cluster
exactly when its business key occurs more than once in the input, each
cluster is precisely the rows of the input bearing its key (so rows
differing only in identifier fall into one cluster), distinct clusters have
distinct keys, clusters are emitted in ascending business-key order, and
the two-row example of spec section 8 forms a single cluster of size 2. -/
theorem duplicate_clusters_spec :
    (∀ (rs : List BillingRecord) (r : BillingRecord),
      (∃ g ∈ duplicateClusters rs, r ∈ g.2) ↔
        r ∈ rs ∧ 1 < rs.countP (fun x => decide (dupKey x = dupKey r)))
    ∧ (∀ (rs : List BillingRecord) (g : DupKey × List BillingRecord),
        g ∈ duplicateClusters rs →
          g.2 = rs.filter (fun r => decide (dupKey r = g.1)) ∧
          1 < rs.countP (fun x => decide (dupKey x = g.1)))
    ∧ (∀ rs : List BillingRecord, ((duplicateClusters rs).map Prod.fst).Nodup)
    ∧ (∀ rs : List BillingRecord,
        List.Sorted (fun a b : DupKey => a ≤ b) ((duplicateClusters rs).map Prod.fst))
    ∧ duplicateClusters [exDupA1, exDupA2] = [(dupKey exDupA1, [exDupA1, exDupA2])] := by
  have hid : ∀ rs : List BillingRecord,
      (Prod.fst ∘ fun k : DupKey =>
        (k, (duplicatedRows rs).filter (fun r => decide (dupKey r = k)))) = id :=
    fun _ => rfl
  refine ⟨?_, ?_, ?_, ?_, ?_⟩
  · intro rs r
    constructor
    · rintro ⟨g, hg, hrg⟩
      rw [duplicateClusters] at hg
      simp only [List.mem_map] at hg
      obtain ⟨k, hk, rfl⟩ := hg
      have hmem := List.mem_of_mem_filter hrg
      have h2 := List.mem_filter.mp hmem
      exact ⟨h2.1, by simpa using h2.2⟩
    · rintro ⟨hr, hcount⟩
      have hdup : r ∈ duplicatedRows rs :=
        List.mem_filter.mpr ⟨hr, by simpa using hcount⟩
      refine ⟨(dupKey r, (duplicatedRows rs).filter (fun x => decide (dupKey x = dupKey r))),
        ?_, ?_⟩
      · rw [duplicateClusters]
        simp only [List.mem_map]
        refine ⟨dupKey r, ?_, rfl⟩
        rw [List.mem_insertionSort, List.mem_dedup]
        exact List.mem_map.mpr ⟨r, hdup, rfl⟩
      · exact List.mem_filter.mpr ⟨hdup, by simp⟩
  · intro rs g hg
    rw [duplicateClusters] at hg
    simp only [List.mem_map] at hg
    obtain ⟨k, hk, rfl⟩ := hg
    rw [List.mem_insertionSort, List.mem_dedup, List.mem_map] at hk
    obtain ⟨r0, hr0, rfl⟩ := hk
    have h0 := List.mem_filter.mp hr0
    have hcnt : 1 < rs.countP (fun x => decide (dupKey x = dupKey r0)) := by simpa using h0.2
    refine ⟨?_, hcnt⟩
    show (duplicatedRows rs).filter _ = _
    rw [duplicatedRows, List.filter_filter]
    apply List.filter_congr
    intro x hx
    by_cases hxk : dupKey x = dupKey r0
    · simp [hxk, hcnt]
    · simp [hxk]
  · intro rs
    rw [duplicateClusters]
    simp only [List.map_map]
    rw [hid rs, List.map_id]
    exact ((List.perm_insertionSort _ _).nodup_iff).mpr (List.nodup_dedup _)
  · intro rs
    rw [duplicateClusters]
    simp only [List.map_map]
    rw [hid rs, List.map_id]
    exact List.sorted_insertionSort _ _
  · norm_num [duplicateClusters, duplicatedRows, dupKey, exDupA1, exDupA2,
      List.insertionSort, List.orderedInsert, List.dedup, List.countP, List.countP.go]

/-- Claim C4 witness: in the two-row example, the single cluster is in the
output and consists of exactly the rows bearing its business key, which
occurs twice. -/
theorem duplicate_clusters_spec_witness :
    (dupKey exDupA1, [exDupA1, exDupA2]) ∈ duplicateClusters [exDupA1, exDupA2] ∧
    ([exDupA1, exDupA2] =
        [exDupA1, exDupA2].filter (fun r => decide (dupKey r = dupKey exDupA1)) ∧
      1 < [exDupA1, exDupA2].countP (fun x => decide (dupKey x = dupKey exDupA1))) := by
  have hmem : (dupKey exDupA1, [exDupA1, exDupA2]) ∈ duplicateClusters [exDupA1, exDupA2] := by
    rw [duplicate_clusters_spec.2.2.2.2]
    exact List.mem_singleton.mpr rfl
  exact ⟨hmem, duplicate_clusters_spec.2.1 [exDupA1, exDupA2] _ hmem⟩

/-- Claim C5: along any legitimate iteration order of the union of keys,
the usage detector emits the mismatch finding for a key exactly when the
key occurs in usage logs or billing rows, both per-key sums are strictly
positive, and abs(usage − billed) / max(usage, billed) × 100 strictly
exceeds 10; every emitted finding is the canonical aggregate record of its
key; recorded 100 against billed 89 is flagged and against billed 91 is
not. -/
theorem usage_mismatch_threshold :
    (∀ (order : List SvcKey) (logs : List UsageLog) (records : List BillingRecord),
      IsKeyEnum order logs records → ∀ k : SvcKey,
        (mkUsageMismatch logs records k ∈ usageMismatchesOrd order logs records ↔
          k ∈ keysOf logs records ∧ 0 < usageTotal logs k ∧ 0 < billedTotal records k ∧
            (10 : ℚ) < |usageTotal logs k - billedTotal records k| /
              max (usageTotal logs k) (billedTotal records k) * 100))
    ∧ (∀ (order : List SvcKey) (logs : List UsageLog) (records : List BillingRecord),
        IsKeyEnum order logs records →
          ∀ m ∈ usageMismatchesOrd order logs records,
            m = mkUsageMismatch logs records (m.customer_id, m.service_type))
    ∧ usageMismatchesCore [exLog100] [exBilled89] =
        [mkUsageMismatch [exLog100] [exBilled89] ("A", "svc")]
    ∧ usageMismatchesCore [exLog100] [exBilled91] = [] := by
  refine ⟨?_, ?_, ?_, ?_⟩
  · intro order logs records henum k
    constructor
    · intro hm
      obtain ⟨k', hk', hstep⟩ := List.mem_filterMap.mp hm
      obtain ⟨hA, hB, hC, heq⟩ := usageStep_eq_some_iff.mp hstep
      have hk1 : k.1 = k'.1 := congrArg UsageMismatch.customer_id heq
      have hk2 : k.2 = k'.2 := congrArg UsageMismatch.service_type heq
      have hkk : k' = k := by
        rw [← Prod.mk.eta (p := k'), ← Prod.mk.eta (p := k), hk1, hk2]
      rw [hkk] at hA hB hC hk'
      exact ⟨henum.2.1 k hk', hA, hB, hC⟩
    · rintro ⟨hk, hA, hB, hC⟩
      exact List.mem_filterMap.mpr
        ⟨k, henum.2.2 k hk, usageStep_eq_some_iff.mpr ⟨hA, hB, hC, rfl⟩⟩
  · intro order logs records henum m hm
    obtain ⟨k', hk', hstep⟩ := List.mem_filterMap.mp hm
    obtain ⟨-, -, -, heq⟩ := usageStep_eq_some_iff.mp hstep
    rw [heq]
    simp [mkUsageMismatch]
  · norm_num [usageMismatchesCore, usageMismatchesOrd, defaultKeyOrder, keysOf, usageStep,
      usageTotal, billedTotal, usageKey, rateKey, exLog100, exBilled89, List.dedup,
      List.filterMap_cons, abs_of_pos, abs_of_neg]
  · norm_num [usageMismatchesCore, usageMismatchesOrd, defaultKeyOrder, keysOf, usageStep,
      usageTotal, billedTotal, usageKey, rateKey, exLog100, exBilled91, List.dedup,
      List.filterMap_cons, abs_of_pos, abs_of_neg]

/-- Claim C5 witness: the first-occurrence enumeration of the 100-vs-89
example is a legitimate iteration order, and the characterisation holds at
its key. -/
theorem usage_mismatch_threshold_witness :
    IsKeyEnum (defaultKeyOrder [exLog100] [exBilled89]) [exLog100] [exBilled89] ∧
    (mkUsageMismatch [exLog100] [exBilled89] ("A", "svc") ∈
        usageMismatchesOrd (defaultKeyOrder [exLog100] [exBilled89]) [exLog100] [exBilled89] ↔
      ("A", "svc") ∈ keysOf [exLog100] [exBilled89] ∧
        0 < usageTotal [exLog100] ("A", "svc") ∧ 0 < billedTotal [exBilled89] ("A", "svc") ∧
        (10 : ℚ) < |usageTotal [exLog100] ("A", "svc") - billedTotal [exBilled89] ("A", "svc")| /
          max (usageTotal [exLog100] ("A", "svc")) (billedTotal [exBilled89] ("A", "svc")) *
            100) :=
  ⟨by decide, usage_mismatch_threshold.1 _ _ _ (by decide) ("A", "svc")⟩

/-- Claim C6: an absent required record set makes the affected detector
return no findings together with the explicit missingInput status instead
of raising, while each of the other detectors, being a function of its own
present inputs alone, returns its ordinary ok result. -/
theorem missing_input_isolation (cs : List Contract) (rs : List BillingRecord)
    (logs : List UsageLog) (customer? service? : Option String) :
    compare_rates none (some rs) customer? service? = ([], DetectorStatus.missingInput)
    ∧ compare_rates (some cs) none customer? service? = ([], DetectorStatus.missingInput)
    ∧ detect_missing_charges none (some rs) = ([], DetectorStatus.missingInput)
    ∧ detect_usage_mismatches none (some rs) = ([], DetectorStatus.missingInput)
    ∧ detect_usage_mismatches (some logs) none = ([], DetectorStatus.missingInput)
    ∧ compare_rates (some cs) (some rs) customer? service? =
        (compareRatesCore (filterContracts customer? service? cs)
          (filterRecords customer? service? rs), DetectorStatus.ok)
    ∧ detect_missing_charges (some cs) (some rs) = (missingChargesCore cs rs, DetectorStatus.ok)
    ∧ detect_duplicate_entries (some rs) = (duplicateClusters rs, DetectorStatus.ok)
    ∧ detect_usage_mismatches (some logs) (some rs) =
        (usageMismatchesCore logs rs, DetectorStatus.ok) :=
  ⟨rfl, rfl, rfl, rfl, rfl, rfl, rfl, rfl, rfl⟩

/-- Claim C7: a billing record whose key matches no contract is invisible —
the rate comparator's output does not change when the record is removed
from any position, the missing-charge detector's output does not change
when the record is prepended, and every missing-charge finding is one of
the input contracts, so none can reference a billing record. -/
theorem orphan_billing_invisible (cs : List Contract) (l1 l2 rs2 : List BillingRecord)
    (r : BillingRecord) (h : ∀ c ∈ cs, contractKey c ≠ rateKey r) :
    compareRatesCore cs (l1 ++ r :: l2) = compareRatesCore cs (l1 ++ l2)
    ∧ missingChargesCore cs (r :: rs2) = missingChargesCore cs rs2
    ∧ ∀ c ∈ missingChargesCore cs rs2, c ∈ cs := by
  have hnone : contract_lookup cs (rateKey r) = none := contract_lookup_eq_none h
  refine ⟨?_, ?_, ?_⟩
  · rw [compareRatesCore_append, compareRatesCore_append,
      compareRatesCore_cons_none (rateStep_none hnone) l2]
  · rw [missingChargesCore, missingChargesCore]
    apply List.filter_congr
    intro c hc
    have hne : rateKey r ≠ contractKey c := fun he => h c hc he.symm
    simp [billed_services, hne]
  · intro c hc
    exact List.mem_of_mem_filter hc

/-- Claim C7 witness: the orphan row against the example contract, at the
only position of a one-row billing input. -/
theorem orphan_billing_invisible_witness :
    (∀ c ∈ [exContract], contractKey c ≠ rateKey exOrphan) ∧
    (compareRatesCore [exContract] ([] ++ exOrphan :: []) =
        compareRatesCore [exContract] ([] ++ []) ∧
      missingChargesCore [exContract] (exOrphan :: []) = missingChargesCore [exContract] [] ∧
      ∀ c ∈ missingChargesCore [exContract] [], c ∈ [exContract]) :=
  ⟨by decide, orphan_billing_invisible [exContract] [] [] [] exOrphan (by decide)⟩

/-- Claim C8: the contract dict resolves every key to the last contract of
the input sequence bearing it, and whenever that last contract exists, the
comparison step for a record with that key uses exactly its agreed rate —
its finding, if emitted, is built from the last-seen contract. -/
theorem last_contract_wins (cs : List Contract) (k : SvcKey) :
    contract_lookup cs k = lastContractFor cs k
    ∧ ∀ (r : BillingRecord) (c : Contract), rateKey r = k → lastContractFor cs k = some c →
        rateStep (contract_lookup cs) r =
          if (0.0001 : ℚ) < |c.agreed_rate - r.billed_rate| then some (mkDiscrepancy c r)
          else none := by
  refine ⟨contract_lookup_eq_last cs k, ?_⟩
  intro r c hrk hlast
  exact rateStep_some (by rw [hrk, contract_lookup_eq_last cs k, hlast])

/-- Claim C8 witness: two contracts on one key, agreed rates 0.05 then
0.07; the dict resolves to the later one and the comparison step for a row
on that key uses its rate. -/
theorem last_contract_wins_witness :
    (rateKey exRecord045 = ("C100", "cloud_storage") ∧
      lastContractFor [exEarlier, exLater] ("C100", "cloud_storage") = some exLater) ∧
    rateStep (contract_lookup [exEarlier, exLater]) exRecord045 =
      (if (0.0001 : ℚ) < |exLater.agreed_rate - exRecord045.billed_rate|
        then some (mkDiscrepancy exLater exRecord045) else none) := by
  have h1 : rateKey exRecord045 = ("C100", "cloud_storage") := rfl
  have h2 : lastContractFor [exEarlier, exLater] ("C100", "cloud_storage") = some exLater := by
    simp [lastContractFor, contractKey, exEarlier, exLater]
  exact ⟨⟨h1, h2⟩,
    (last_contract_wins [exEarlier, exLater] ("C100", "cloud_storage")).2 exRecord045 exLater
      h1 h2⟩

/-- Claim C9 counterexample: with eleven discrepancies, the report renders
detail only for the first ten — the finding for invoice I11 is among the
discrepancies but not among the detailed ones, so the report does not
contain per-finding detail for each discrepancy. -/
theorem rate_report_detail_counterexample :
    ¬ ∀ d ∈ compareRatesCore [exReportContract] exReportRows,
        d ∈ (rateReport (compareRatesCore [exReportContract] exReportRows)).detailed := by
  intro hall
  have heval : compareRatesCore [exReportContract] exReportRows =
      [mkDiscrepancy exReportContract (exReportRow "I01"),
       mkDiscrepancy exReportContract (exReportRow "I02"),
       mkDiscrepancy exReportContract (exReportRow "I03"),
       mkDiscrepancy exReportContract (exReportRow "I04"),
       mkDiscrepancy exReportContract (exReportRow "I05"),
       mkDiscrepancy exReportContract (exReportRow "I06"),
       mkDiscrepancy exReportContract (exReportRow "I07"),
       mkDiscrepancy exReportContract (exReportRow "I08"),
       mkDiscrepancy exReportContract (exReportRow "I09"),
       mkDiscrepancy exReportContract (exReportRow "I10"),
       mkDiscrepancy exReportContract (exReportRow "I11")] := by
    norm_num [compareRatesCore, contract_lookup, lookupStep, rateStep, rateKey, contractKey,
      exReportContract, exReportRows, exReportRow, List.filterMap_cons, abs_of_pos,
      abs_of_neg]
  have h11 := hall (mkDiscrepancy exReportContract (exReportRow "I11"))
    (by rw [heval]; simp)
  rw [heval] at h11
  simp only [rateReport, List.take] at h11
  simp [mkDiscrepancy, exReportRow] at h11

/-- Claim C9 amended: the report states the count of all discrepancies and
the total revenue impact summed over all of them (not only the detailed
ones), renders per-finding detail for the first min(10, count)
discrepancies, and states how many further discrepancies were omitted. -/
theorem rate_report_fields (cs : List Contract) (rs : List BillingRecord) :
    (rateReport (compareRatesCore cs rs)).count = (compareRatesCore cs rs).length
    ∧ (rateReport (compareRatesCore cs rs)).total_impact =
        ((compareRatesCore cs rs).map Discrepancy.revenue_impact).sum
    ∧ (rateReport (compareRatesCore cs rs)).detailed = (compareRatesCore cs rs).take 10
    ∧ (rateReport (compareRatesCore cs rs)).detailed.length =
        min 10 (compareRatesCore cs rs).length
    ∧ (rateReport (compareRatesCore cs rs)).omitted = (compareRatesCore cs rs).length - 10 :=
  ⟨rfl, rfl, rfl, by simp [rateReport, List.length_take], rfl⟩

/-- Claim C10: the emission order of the usage-mismatch detector follows
the iteration order of the Python set union of keys, which the runtime does
not fix — two legitimate iteration orders of the same key set produce the
same findings in different orders, so re-running the detector on identical
inputs need not yield an identical finding list. -/
theorem usage_mismatch_order_dependence :
    IsKeyEnum exOrderAB [exMismatchLogA, exMismatchLogB] [exMismatchRecA, exMismatchRecB]
    ∧ IsKeyEnum exOrderBA [exMismatchLogA, exMismatchLogB] [exMismatchRecA, exMismatchRecB]
    ∧ usageMismatchesOrd exOrderAB [exMismatchLogA, exMismatchLogB]
        [exMismatchRecA, exMismatchRecB] ≠
      usageMismatchesOrd exOrderBA [exMismatchLogA, exMismatchLogB]
        [exMismatchRecA, exMismatchRecB]
    ∧ List.Perm
        (usageMismatchesOrd exOrderAB [exMismatchLogA, exMismatchLogB]
          [exMismatchRecA, exMismatchRecB])
        (usageMismatchesOrd exOrderBA [exMismatchLogA, exMismatchLogB]
          [exMismatchRecA, exMismatchRecB]) := by
  have hstepA : usageStep [exMismatchLogA, exMismatchLogB] [exMismatchRecA, exMismatchRecB]
      ("A", "svc") =
      some (mkUsageMismatch [exMismatchLogA, exMismatchLogB] [exMismatchRecA, exMismatchRecB]
        ("A", "svc")) := by
    simp [usageStep, usageTotal, billedTotal, usageKey, rateKey, exMismatchLogA,
      exMismatchLogB, exMismatchRecA, exMismatchRecB, List.filter_cons, mkUsageMismatch]
    norm_num [abs_of_pos, abs_of_neg]
  have hstepB : usageStep [exMismatchLogA, exMismatchLogB] [exMismatchRecA, exMismatchRecB]
      ("B", "svc") =
      some (mkUsageMismatch [exMismatchLogA, exMismatchLogB] [exMismatchRecA, exMismatchRecB]
        ("B", "svc")) := by
    simp [usageStep, usageTotal, billedTotal, usageKey, rateKey, exMismatchLogA,
      exMismatchLogB, exMismatchRecA, exMismatchRecB, List.filter_cons, mkUsageMismatch]
    norm_num [abs_of_pos, abs_of_neg]
  have hA : usageMismatchesOrd exOrderAB [exMismatchLogA, exMismatchLogB]
      [exMismatchRecA, exMismatchRecB] =
      [mkUsageMismatch [exMismatchLogA, exMismatchLogB] [exMismatchRecA, exMismatchRecB]
        ("A", "svc"),
       mkUsageMismatch [exMismatchLogA, exMismatchLogB] [exMismatchRecA, exMismatchRecB]
        ("B", "svc")] := by
    simp [usageMismatchesOrd, exOrderAB, List.filterMap_cons, hstepA, hstepB]
  have hB : usageMismatchesOrd exOrderBA [exMismatchLogA, exMismatchLogB]
      [exMismatchRecA, exMismatchRecB] =
      [mkUsageMismatch [exMismatchLogA, exMismatchLogB] [exMismatchRecA, exMismatchRecB]
        ("B", "svc"),
       mkUsageMismatch [exMismatchLogA, exMismatchLogB] [exMismatchRecA, exMismatchRecB]
        ("A", "svc")] := by
    simp [usageMismatchesOrd, exOrderBA, List.filterMap_cons, hstepA, hstepB]
  refine ⟨by decide, by decide, ?_, ?_⟩
  · rw [hA, hB]
    simp [mkUsageMismatch]
  · rw [hA, hB]
    exact List.Perm.swap _ _ _
